import Mathlib

/-!
Shallow embedding of the typed-value / port-contract layer of
`src/include/behaviortree_cpp/basic_types.h` (namespace `BT`).

C++ templates are modelled by an explicit inductive type `TypeId` of type
identities (one constructor per type the header mentions, plus `other` for
a user type with no template specialization), and values by `CppValue`.
Exceptions become `Except BTError`.  Function bodies that live in the
header are translated directly; bodies that the header only declares
(they live in a source file not part of this tree) are modelled from the
specification and marked `Modelled from the spec:`.
-/

namespace BT

/-- Enumerates the possible types of nodes (basic_types.h lines 23-31). -/
inductive NodeType
  | UNDEFINED
  | ACTION
  | CONDITION
  | CONTROL
  | DECORATOR
  | SUBTREE
deriving DecidableEq, BEq, Repr

/-- Enumerates the states every node can be in after execution
(basic_types.h lines 36-43). -/
inductive NodeStatus
  | IDLE
  | RUNNING
  | SUCCESS
  | FAILURE
  | SKIPPED
deriving DecidableEq, BEq, Repr

/-- basic_types.h lines 45-48: `status != IDLE && status != SKIPPED`. -/
def isStatusActive (status : NodeStatus) : Bool :=
  status != NodeStatus.IDLE && status != NodeStatus.SKIPPED

/-- basic_types.h lines 50-53: `status == SUCCESS || status == FAILURE`. -/
def isStatusCompleted (status : NodeStatus) : Bool :=
  status == NodeStatus.SUCCESS || status == NodeStatus.FAILURE

/-- basic_types.h lines 55-60. -/
inductive PortDirection
  | INPUT
  | OUTPUT
  | INOUT
deriving DecidableEq, BEq, Repr

/-- A C++ type identity (the role `typeid` / `std::type_index` plays in the
header).  One constructor per concrete type the embedding needs; `other nm a`
stands for a user-defined type named `nm`, with `a` recording whether it
satisfies `std::is_arithmetic_v`, for which NO template specialization of
`convertFromString` or `toStr` exists. -/
inductive TypeId
  | voidT
  | anyTypeAllowed
  | stringT
  | charPtrT
  | boolT
  | nodeStatusT
  | nodeTypeT
  | portDirectionT
  | other (nm : String) (arithmetic : Bool)
deriving DecidableEq, BEq, Repr

/-- `BT::demangle(typeid(T))`: the human-readable name of a type identity. -/
def demangle : TypeId → String
  | .voidT => "void"
  | .anyTypeAllowed => "BT::PortInfo::AnyTypeAllowed"
  | .stringT => "std::string"
  | .charPtrT => "const char*"
  | .boolT => "bool"
  | .nodeStatusT => "BT::NodeStatus"
  | .nodeTypeT => "BT::NodeType"
  | .portDirectionT => "BT::PortDirection"
  | .other nm _ => nm

/-- `std::is_arithmetic_v<T>` for the modelled types (`bool` is arithmetic
in C++; pointers and class types are not). -/
def TypeId.isArithmetic : TypeId → Bool
  | .boolT => true
  | .other _ a => a
  | _ => false

/-- `std::is_constructible_v<StringView, T>` for the modelled types:
`std::string` and `const char*` are the text-like types. -/
def TypeId.isStringViewConstructible : TypeId → Bool
  | .stringT => true
  | .charPtrT => true
  | _ => false

/-- A typed C++ value, as stored inside `Any`.  `otherVal t payload` is a
value of an unspecialized type `t`; its `payload` is the numeric content
that `std::to_string` would read when `t` is arithmetic (the generic
`toStr` template inspects the value only in that branch). -/
inductive CppValue
  | strVal (s : String)
  | boolVal (b : Bool)
  | statusVal (s : NodeStatus)
  | kindVal (k : NodeType)
  | dirVal (d : PortDirection)
  | otherVal (t : TypeId) (payload : Int)
deriving DecidableEq, BEq, Repr

/-- The runtime type identity carried by a value. -/
def typeOfVal : CppValue → TypeId
  | .strVal _ => .stringT
  | .boolVal _ => .boolT
  | .statusVal _ => .nodeStatusT
  | .kindVal _ => .nodeTypeT
  | .dirVal _ => .portDirectionT
  | .otherVal t _ => t

/-- The type-erased container `BT::Any` (from safe_any.hpp): either
default-constructed (empty) or holding one typed value. -/
inductive Any
  | empty
  | val (v : CppValue)
deriving DecidableEq, BEq, Repr

/-- The exception classes of exceptions.h that basic_types.h throws. -/
inductive BTError
  | LogicError (msg : String)
  | RuntimeError (msg : String)
deriving DecidableEq, BEq, Repr

/-- Modelled from the spec: the body of `toStr<BT::NodeStatus>` (declared at
basic_types.h lines 180-181) is not in this tree; the spec fixes the
canonical all-uppercase names of the enumerators. -/
def toStrNodeStatus : NodeStatus → String
  | .IDLE => "IDLE"
  | .RUNNING => "RUNNING"
  | .SUCCESS => "SUCCESS"
  | .FAILURE => "FAILURE"
  | .SKIPPED => "SKIPPED"

/-- Modelled from the spec: the body of `toStr<BT::NodeType>` (declared at
basic_types.h lines 191-192) is not in this tree; canonical uppercase names. -/
def toStrNodeType : NodeType → String
  | .UNDEFINED => "UNDEFINED"
  | .ACTION => "ACTION"
  | .CONDITION => "CONDITION"
  | .CONTROL => "CONTROL"
  | .DECORATOR => "DECORATOR"
  | .SUBTREE => "SUBTREE"

/-- Modelled from the spec: the body of `toStr<BT::PortDirection>` (declared
at basic_types.h lines 196-197) is not in this tree; canonical uppercase
names. -/
def toStrPortDirection : PortDirection → String
  | .INPUT => "INPUT"
  | .OUTPUT => "OUTPUT"
  | .INOUT => "INOUT"

/-- Modelled from the spec: the body of `convertFromString<NodeStatus>`
(declared at basic_types.h lines 123-124, "Names with all capital letters")
is not in this tree; exact, case-sensitive match against the canonical
names, anything else fails with a descriptive error. -/
def nodeStatusFromString (s : String) : Except BTError NodeStatus :=
  if s = "IDLE" then .ok .IDLE
  else if s = "RUNNING" then .ok .RUNNING
  else if s = "SUCCESS" then .ok .SUCCESS
  else if s = "FAILURE" then .ok .FAILURE
  else if s = "SKIPPED" then .ok .SKIPPED
  else .error (.RuntimeError ("Cannot convert this to NodeStatus: " ++ s))

/-- Modelled from the spec: the body of `convertFromString<NodeType>`
(declared at basic_types.h lines 127-128) is not in this tree; exact,
case-sensitive match against the canonical names. -/
def nodeTypeFromString (s : String) : Except BTError NodeType :=
  if s = "UNDEFINED" then .ok .UNDEFINED
  else if s = "ACTION" then .ok .ACTION
  else if s = "CONDITION" then .ok .CONDITION
  else if s = "CONTROL" then .ok .CONTROL
  else if s = "DECORATOR" then .ok .DECORATOR
  else if s = "SUBTREE" then .ok .SUBTREE
  else .error (.RuntimeError ("Cannot convert this to NodeType: " ++ s))

/-- Modelled from the spec: the body of `convertFromString<PortDirection>`
(declared at basic_types.h lines 130-131) is not in this tree; exact,
case-sensitive match against the canonical names. -/
def portDirectionFromString (s : String) : Except BTError PortDirection :=
  if s = "INPUT" then .ok .INPUT
  else if s = "OUTPUT" then .ok .OUTPUT
  else if s = "INOUT" then .ok .INOUT
  else .error (.RuntimeError ("Cannot convert this to PortDirection: " ++ s))

/-- Modelled from the spec: the body of `convertFromString<bool>` (declared
at basic_types.h lines 119-120, "This recognizes either 0/1, true/false,
TRUE/FALSE") is not in this tree; the spec fixes the six accepted forms,
case-sensitively, and failure on everything else. -/
def boolFromString (s : String) : Except BTError Bool :=
  if s = "1" ∨ s = "true" ∨ s = "TRUE" then .ok true
  else if s = "0" ∨ s = "false" ∨ s = "FALSE" then .ok false
  else .error (.RuntimeError ("convertFromString(): invalid bool conversion: " ++ s))

/-- Modelled from the spec: the body of `toStr<bool>` (declared at
basic_types.h lines 174-175) is not in this tree; renders one of the
accepted textual forms. -/
def toStrBool (b : Bool) : String :=
  if b then "true" else "false"

/-- `toStr` on a typed value: models C++ overload resolution over the
generic template (basic_types.h lines 158-172) and the declared
specializations.  The generic template applies to `otherVal` (a type with
no specialization): arithmetic types render via `std::to_string`, any other
type throws a `LogicError` naming the type.  The specialized cases defer to
the spec-modelled renderers above (`toStr<std::string>` returns its
argument). -/
def toStr : CppValue → Except BTError String
  | .strVal s => .ok s
  | .boolVal b => .ok (toStrBool b)
  | .statusVal s => .ok (toStrNodeStatus s)
  | .kindVal k => .ok (toStrNodeType k)
  | .dirVal d => .ok (toStrPortDirection d)
  | .otherVal t payload =>
      if t.isArithmetic then .ok (toString payload)
      else .error (.LogicError
        ("Function BT::toStr<T>() not specialized for type ["
          ++ demangle t
          ++ "],Implement it consistently with BT::convertFromString<T>(), "
          ++ "or provide at dummy version that returns an empty string."))

/-- `convertFromString` dispatched on the type identity: models C++
template specialization lookup.  The catch-all branch is the primary
template of basic_types.h lines 72-84: any type with no specialization
(including `void`, `AnyTypeAllowed` and every `other` type) throws a
`LogicError` naming the type.  The text-like specializations store the
text; the bool and enum specializations defer to the spec-modelled
definitions above. -/
def convertFromString : TypeId → String → Except BTError CppValue
  | .stringT, s => .ok (.strVal s)
  | .charPtrT, s => .ok (.strVal s)
  | .boolT, s => (boolFromString s).map .boolVal
  | .nodeStatusT, s => (nodeStatusFromString s).map .statusVal
  | .nodeTypeT, s => (nodeTypeFromString s).map .kindVal
  | .portDirectionT, s => (portDirectionFromString s).map .dirVal
  | t, _ => .error (.LogicError
      ("You didn't implement the template specialization of "
        ++ "convertFromString for this type: " ++ demangle t))

/-- `BT::StringConverter = std::function<Any(StringView)>`; an empty
`std::function` is `none`. -/
abbrev StringConverter := String → Except BTError Any

/-- `GetAnyFromStringFunctor<T>` (basic_types.h lines 138-154): the `void`
specialization returns an empty functor; for text-like `T` the functor
stores the text directly in an `Any`; otherwise it wraps
`convertFromString<T>`. -/
def GetAnyFromStringFunctor (t : TypeId) : Option StringConverter :=
  if t = .voidT then none
  else if t.isStringViewConstructible then some (fun s => .ok (.val (.strVal s)))
  else some (fun s => (convertFromString t s).map .val)

/-- `BT::PortInfo` (basic_types.h lines 258-327): the private fields, with
`type_` holding the direction (that is its name in the source). -/
structure PortInfo where
  type_ : PortDirection
  type_info_ : TypeId
  converter_ : Option StringConverter
  description_ : String
  default_value_ : Any
  default_value_str_ : String
  type_str_ : String

/-- The `PortInfo(PortDirection direction = INOUT)` constructor
(basic_types.h lines 265-268): type identity is `AnyTypeAllowed`, the type
name string is the literal "AnyTypeAllowed", every other field is
default-initialized (empty). -/
def PortInfo.mkDefault (direction : PortDirection) : PortInfo :=
  ⟨direction, .anyTypeAllowed, none, "", .empty, "", "AnyTypeAllowed"⟩

/-- The `PortInfo(direction, type_info, conv)` constructor (basic_types.h
lines 270-273): the type name string is `demangle(type_info)`. -/
def PortInfo.mkTyped (direction : PortDirection) (t : TypeId)
    (conv : Option StringConverter) : PortInfo :=
  ⟨direction, t, conv, "", .empty, "", demangle t⟩

/-- `PortInfo::isStronglyTyped` (basic_types.h lines 309-312):
`type_info_ != typeid(AnyTypeAllowed)`. -/
def PortInfo.isStronglyTyped (p : PortInfo) : Bool :=
  decide (p.type_info_ ≠ TypeId.anyTypeAllowed)

/-- `PortInfo::converter` (basic_types.h lines 314-317). -/
def PortInfo.converter (p : PortInfo) : Option StringConverter :=
  p.converter_

/-- Modelled from the spec: the body of `PortInfo::direction` is not in
this tree; it is the trivial accessor of the direction field. -/
def PortInfo.direction (p : PortInfo) : PortDirection :=
  p.type_

/-- Modelled from the spec: the body of `PortInfo::type` is not in this
tree; the trivial accessor of the type identity. -/
def PortInfo.type (p : PortInfo) : TypeId :=
  p.type_info_

/-- Modelled from the spec: the body of `PortInfo::typeName` is not in this
tree; the human-readable type name derived at construction. -/
def PortInfo.typeName (p : PortInfo) : String :=
  p.type_str_

/-- Modelled from the spec: the body of `PortInfo::description` is not in
this tree; the trivial accessor. -/
def PortInfo.description (p : PortInfo) : String :=
  p.description_

/-- Modelled from the spec: the body of `PortInfo::defaultValue` is not in
this tree; the trivial accessor of the typed default. -/
def PortInfo.defaultValue (p : PortInfo) : Any :=
  p.default_value_

/-- Modelled from the spec: the body of `PortInfo::defaultValueString` is
not in this tree; the trivial accessor of the rendered default. -/
def PortInfo.defaultValueString (p : PortInfo) : String :=
  p.default_value_str_

/-- Modelled from the spec: the body of `PortInfo::setDescription` is not
in this tree; it stores the description text. -/
def PortInfo.setDescription (p : PortInfo) (description : String) : PortInfo :=
  { p with description_ := description }

/-- The generic `parseString(const T&)` member template (basic_types.h
lines 285-290): for any argument that is not a C string or a
`std::string`, it returns a default-constructed `Any` ("avoid compilation
errors"). -/
def PortInfo.parseStringOther (_p : PortInfo) (_v : CppValue) : Any :=
  Any.empty

/-- `PortInfo::setDefaultValue` (basic_types.h lines 294-301): store the
typed default, then attempt `BT::toStr` on it; a `LogicError` from the
rendering is caught and discarded (the rendered-string field keeps its
previous value), any other exception propagates. -/
def PortInfo.setDefaultValue (p : PortInfo) (v : CppValue) :
    Except BTError PortInfo :=
  let p1 := { p with default_value_ := Any.val v }
  match toStr v with
  | .ok s => .ok { p1 with default_value_str_ := s }
  | .error (.LogicError _) => .ok p1
  | .error e => .error e

/-- Modelled from the spec: the body of `IsAllowedPortName` (declared at
basic_types.h lines 255-256) is not in this tree; the spec's identifier
grammar: the name must begin with an alphabetic character (which also
rules out the empty name and names beginning with an underscore) and must
not equal the reserved literals "name" or "ID". -/
def IsAllowedPortName (s : String) : Bool :=
  match s.data.head? with
  | none => false
  | some c => c.isAlpha && s != "name" && s != "ID"

/-- `CreatePort<T>` (basic_types.h lines 329-357), with the template
parameter `T` passed explicitly as a type identity (the source default is
`T = PortInfo::AnyTypeAllowed`).  An invalid name throws a `RuntimeError`;
`T = void` yields the untyped `PortInfo(direction)`; any other `T` yields
`PortInfo(direction, typeid(T), GetAnyFromStringFunctor<T>())`; a nonempty
description is stored. -/
def CreatePort (t : TypeId) (direction : PortDirection)
    (name : String) (description : String) :
    Except BTError (String × PortInfo) :=
  if IsAllowedPortName name = false then
    .error (.RuntimeError
      ("The name of a port must not be `name` or `ID` "
        ++ "and must start with an alphabetic character. "
        ++ "Underscore is reserved."))
  else
    let info :=
      if t = .voidT then PortInfo.mkDefault direction
      else PortInfo.mkTyped direction t (GetAnyFromStringFunctor t)
    let info2 := if description = "" then info else info.setDescription description
    .ok (name, info2)

/-- `BT::PortsList = std::unordered_map<std::string, PortInfo>`
(basic_types.h line 401), modelled as an association list. -/
abbrev PortsList := List (String × PortInfo)

/-- A node type, for capability discovery: the SFINAE detection of
basic_types.h lines 403-427 (`has_static_method_providedPorts`,
`has_static_method_description`) becomes an optional static member: `some`
when the class declares the static method, `none` when it does not. -/
structure NodeTypeModel where
  providedPortsDecl : Option PortsList
  descriptionDecl : Option String

/-- `getProvidedPorts<T>` (basic_types.h lines 429-440): the SFINAE
overload pair returns `T::providedPorts()` when the static method exists
and an empty `PortsList` otherwise; neither overload can fail. -/
def getProvidedPorts (nt : NodeTypeModel) : PortsList :=
  match nt.providedPortsDecl with
  | some ps => ps
  | none => []

/-!  Theorems. -/

/-- Claim C8: for every NodeStatus s, `isStatusActive s` holds exactly when
s is neither IDLE nor SKIPPED, and `isStatusCompleted s` holds exactly when
s is SUCCESS or FAILURE. -/
theorem isStatusActive_isStatusCompleted_spec (s : NodeStatus) :
    (isStatusActive s = true ↔ (s ≠ NodeStatus.IDLE ∧ s ≠ NodeStatus.SKIPPED))
    ∧ (isStatusCompleted s = true ↔ (s = NodeStatus.SUCCESS ∨ s = NodeStatus.FAILURE)) := by
  cases s <;> decide

/-- Witness for C8 at concrete statuses: RUNNING is active and SUCCESS is
completed. -/
theorem isStatusActive_isStatusCompleted_spec_witness :
    isStatusActive NodeStatus.RUNNING = true
    ∧ isStatusCompleted NodeStatus.SUCCESS = true :=
  ⟨(isStatusActive_isStatusCompleted_spec NodeStatus.RUNNING).1.mpr (by decide),
   (isStatusActive_isStatusCompleted_spec NodeStatus.SUCCESS).2.mpr (Or.inl rfl)⟩

/-- Claim C10: a PortInfo built by the direction-only constructor has, for
every direction, the AnyTypeAllowed type identity, type name
"AnyTypeAllowed", `isStronglyTyped = false`, an empty converter, and empty
description, default value and default value string. -/
theorem portInfo_default_constructor_spec (d : PortDirection) :
    (PortInfo.mkDefault d).type = TypeId.anyTypeAllowed
    ∧ (PortInfo.mkDefault d).typeName = "AnyTypeAllowed"
    ∧ (PortInfo.mkDefault d).isStronglyTyped = false
    ∧ (PortInfo.mkDefault d).converter = none
    ∧ (PortInfo.mkDefault d).description = ""
    ∧ (PortInfo.mkDefault d).defaultValue = Any.empty
    ∧ (PortInfo.mkDefault d).defaultValueString = ""
    ∧ (PortInfo.mkDefault d).direction = d :=
  ⟨rfl, rfl, rfl, rfl, rfl, rfl, rfl, rfl⟩

/-- Claim C9: the generic `parseString` overload returns an empty Any for
every PortInfo and every non-string argument; it performs no conversion and
its result does not depend on the port (in particular not on its
converter). -/
theorem parseString_generic_returns_empty (p q : PortInfo) (v : CppValue) :
    p.parseStringOther v = Any.empty
    ∧ p.parseStringOther v = q.parseStringOther v :=
  ⟨rfl, rfl⟩

/-- Claim C6: `getProvidedPorts` returns the declared static PortsList when
the node type declares one, and the empty PortsList (with no possibility of
error) when it does not. -/
theorem getProvidedPorts_spec (nt : NodeTypeModel) :
    (∀ ps, nt.providedPortsDecl = some ps → getProvidedPorts nt = ps)
    ∧ (nt.providedPortsDecl = none → getProvidedPorts nt = ([] : PortsList)) := by
  constructor
  · intro ps h
    simp [getProvidedPorts, h]
  · intro h
    simp [getProvidedPorts, h]

/-- Witness for C6, at a node type with no declaration and one with a
singleton declaration. -/
theorem getProvidedPorts_spec_witness :
    getProvidedPorts ⟨none, none⟩ = ([] : PortsList)
    ∧ getProvidedPorts ⟨some [("speed", PortInfo.mkDefault PortDirection.INPUT)], none⟩
        = [("speed", PortInfo.mkDefault PortDirection.INPUT)] :=
  ⟨(getProvidedPorts_spec ⟨none, none⟩).2 rfl,
   (getProvidedPorts_spec ⟨some [("speed", PortInfo.mkDefault PortDirection.INPUT)], none⟩).1
     [("speed", PortInfo.mkDefault PortDirection.INPUT)] rfl⟩

/-- Claim C1: for each of the three core enumerations, parsing succeeds
with value v exactly on the canonical name of v (so parsing is
case-sensitive and exact, every non-canonical string fails, and
`parse (render v) = v`), and every canonical name is all-uppercase. -/
theorem enum_canonical_text_roundtrip :
    (∀ s v, nodeStatusFromString s = Except.ok v ↔ s = toStrNodeStatus v)
    ∧ (∀ s v, nodeTypeFromString s = Except.ok v ↔ s = toStrNodeType v)
    ∧ (∀ s v, portDirectionFromString s = Except.ok v ↔ s = toStrPortDirection v)
    ∧ (∀ v : NodeStatus, (toStrNodeStatus v).data.all Char.isUpper = true)
    ∧ (∀ v : NodeType, (toStrNodeType v).data.all Char.isUpper = true)
    ∧ (∀ v : PortDirection, (toStrPortDirection v).data.all Char.isUpper = true) := by
  refine ⟨?_, ?_, ?_, ?_, ?_, ?_⟩
  · intro s v
    unfold nodeStatusFromString
    split_ifs <;> cases v <;> simp_all [toStrNodeStatus]
  · intro s v
    unfold nodeTypeFromString
    split_ifs <;> cases v <;> simp_all [toStrNodeType]
  · intro s v
    unfold portDirectionFromString
    split_ifs <;> cases v <;> simp_all [toStrPortDirection]
  · intro v; cases v <;> decide
  · intro v; cases v <;> decide
  · intro v; cases v <;> decide

/-- Witness for C1 at concrete values: RUNNING round-trips, and the
lowercase form "running" is rejected. -/
theorem enum_canonical_text_roundtrip_witness :
    nodeStatusFromString (toStrNodeStatus NodeStatus.RUNNING) = Except.ok NodeStatus.RUNNING
    ∧ ¬ nodeStatusFromString "running" = Except.ok NodeStatus.RUNNING :=
  ⟨(enum_canonical_text_roundtrip.1 (toStrNodeStatus NodeStatus.RUNNING) NodeStatus.RUNNING).mpr rfl,
   fun h => by
     have := (enum_canonical_text_roundtrip.1 "running" NodeStatus.RUNNING).mp h
     simp [toStrNodeStatus] at this⟩

/-- Claim C4: for every type, direction and description, `CreatePort` fails
with the naming RuntimeError exactly when the name violates the identifier
grammar (first character missing or not alphabetic, the reserved literals
"name" or "ID", or a leading underscore), and for every allowed name it
succeeds, returning that name paired with a PortInfo. -/
theorem createPort_name_validation (t : TypeId) (d : PortDirection)
    (name description : String) :
    ((∃ msg, CreatePort t d name description = .error (.RuntimeError msg)) ↔
      ((∀ c, name.data.head? = some c → c.isAlpha = false)
        ∨ name = "name" ∨ name = "ID" ∨ name.data.head? = some '_'))
    ∧ (IsAllowedPortName name = true →
        ∃ info, CreatePort t d name description = .ok (name, info)) := by
  have hgrammar : IsAllowedPortName name = false ↔
      ((∀ c, name.data.head? = some c → c.isAlpha = false)
        ∨ name = "name" ∨ name = "ID" ∨ name.data.head? = some '_') := by
    unfold IsAllowedPortName
    cases h : name.data.head? with
    | none => simp
    | some c =>
      constructor
      · intro hfalse
        simp only [Bool.and_eq_false_iff] at hfalse
        rcases hfalse with (hc | hn) | hid
        · exact Or.inl (fun x hx => Option.some.inj hx ▸ hc)
        · exact Or.inr (Or.inl (by simpa using hn))
        · exact Or.inr (Or.inr (Or.inl (by simpa using hid)))
      · intro hviol
        rcases hviol with hna | hn | hid | hund
        · simp [hna c rfl]
        · simp [hn]
        · simp [hid]
        · have hc := Option.some.inj hund
          subst hc
          have hu : ('_' : Char).isAlpha = false := by decide
          simp [hu]
  constructor
  · rw [← hgrammar]
    constructor
    · rintro ⟨msg, hmsg⟩
      cases htest : IsAllowedPortName name with
      | false => rfl
      | true =>
        exfalso
        unfold CreatePort at hmsg
        rw [htest] at hmsg
        simp at hmsg
    · intro hfalse
      unfold CreatePort
      rw [hfalse]
      exact ⟨_, rfl⟩
  · intro htrue
    unfold CreatePort
    rw [htrue]
    exact ⟨_, rfl⟩

/-- Witness for C4 at concrete names: "speed" is accepted while "name",
"ID", "_x" and "1x" are all rejected with the naming error. -/
theorem createPort_name_validation_witness :
    (∃ info, CreatePort TypeId.stringT PortDirection.INPUT "speed" "" =
        .ok ("speed", info))
    ∧ (∃ msg, CreatePort TypeId.stringT PortDirection.INPUT "name" "" =
        .error (.RuntimeError msg))
    ∧ (∃ msg, CreatePort TypeId.stringT PortDirection.INPUT "ID" "" =
        .error (.RuntimeError msg))
    ∧ (∃ msg, CreatePort TypeId.stringT PortDirection.INPUT "_x" "" =
        .error (.RuntimeError msg))
    ∧ (∃ msg, CreatePort TypeId.stringT PortDirection.INPUT "1x" "" =
        .error (.RuntimeError msg)) :=
  ⟨(createPort_name_validation TypeId.stringT PortDirection.INPUT "speed" "").2 (by decide),
   (createPort_name_validation TypeId.stringT PortDirection.INPUT "name" "").1.mpr
     (Or.inr (Or.inl rfl)),
   (createPort_name_validation TypeId.stringT PortDirection.INPUT "ID" "").1.mpr
     (Or.inr (Or.inr (Or.inl rfl))),
   (createPort_name_validation TypeId.stringT PortDirection.INPUT "_x" "").1.mpr
     (Or.inr (Or.inr (Or.inr (by decide)))),
   (createPort_name_validation TypeId.stringT PortDirection.INPUT "1x" "").1.mpr
     (Or.inl (by decide))⟩

/-- Claim C5: for a type with no template specialization,
`convertFromString` fails with a LogicError whose message names the type,
for every input text; `toStr` on a value of such a type fails with a
LogicError naming the type when the type is not arithmetic, and renders via
the standard numeric conversion when it is arithmetic. -/
theorem unspecialized_type_conversion_fatal (nm : String) (a : Bool)
    (s : String) (payload : Int) :
    convertFromString (TypeId.other nm a) s =
      .error (.LogicError
        ("You didn't implement the template specialization of "
          ++ "convertFromString for this type: " ++ nm))
    ∧ (a = false →
        toStr (CppValue.otherVal (TypeId.other nm a) payload) =
          .error (.LogicError
            ("Function BT::toStr<T>() not specialized for type ["
              ++ nm
              ++ "],Implement it consistently with BT::convertFromString<T>(), "
              ++ "or provide at dummy version that returns an empty string.")))
    ∧ (a = true →
        toStr (CppValue.otherVal (TypeId.other nm a) payload) =
          .ok (toString payload)) := by
  refine ⟨rfl, ?_, ?_⟩
  · intro ha
    subst ha
    rfl
  · intro ha
    subst ha
    rfl

/-- Witness for C5 at a concrete unregistered class type and a concrete
unregistered arithmetic type. -/
theorem unspecialized_type_conversion_fatal_witness :
    toStr (CppValue.otherVal (TypeId.other "Pose2D" false) 0) =
      .error (.LogicError
        ("Function BT::toStr<T>() not specialized for type ["
          ++ "Pose2D"
          ++ "],Implement it consistently with BT::convertFromString<T>(), "
          ++ "or provide at dummy version that returns an empty string."))
    ∧ toStr (CppValue.otherVal (TypeId.other "short" true) 7) = .ok (toString (7 : Int)) :=
  ⟨(unspecialized_type_conversion_fatal "Pose2D" false "x" 0).2.1 rfl,
   (unspecialized_type_conversion_fatal "short" true "x" 7).2.2 rfl⟩

/-- Claim C7: the boolean conversion maps exactly "1", "true", "TRUE" to
true and exactly "0", "false", "FALSE" to false, case-sensitively, and
fails with a conversion error on every other string. -/
theorem boolFromString_exact (s : String) :
    (boolFromString s = .ok true ↔ (s = "1" ∨ s = "true" ∨ s = "TRUE"))
    ∧ (boolFromString s = .ok false ↔ (s = "0" ∨ s = "false" ∨ s = "FALSE"))
    ∧ ((s ≠ "1" ∧ s ≠ "true" ∧ s ≠ "TRUE" ∧ s ≠ "0" ∧ s ≠ "false" ∧ s ≠ "FALSE") →
        ∃ msg, boolFromString s = .error (.RuntimeError msg)) := by
  unfold boolFromString
  split_ifs with h1 h2
  · refine ⟨by simp [h1], ?_, ?_⟩
    · constructor
      · intro h; cases h
      · intro h
        rcases h1 with h1 | h1 | h1 <;> rcases h with h | h | h <;> simp_all
    · intro hne
      rcases h1 with h1 | h1 | h1 <;> simp_all
  · refine ⟨?_, by simp [h2], ?_⟩
    · constructor
      · intro h; cases h
      · intro h
        exact absurd (by tauto) h1
    · intro hne
      rcases h2 with h2 | h2 | h2 <;> simp_all
  · push_neg at h1 h2
    refine ⟨?_, ?_, fun _ => ⟨_, rfl⟩⟩
    · constructor
      · intro h; cases h
      · intro h; exact absurd h (by tauto)
    · constructor
      · intro h; cases h
      · intro h; exact absurd h (by tauto)

/-- Witness for C7: the six accepted forms and the rejected "yes". -/
theorem boolFromString_exact_witness :
    boolFromString "0" = .ok false
    ∧ boolFromString "false" = .ok false
    ∧ boolFromString "FALSE" = .ok false
    ∧ boolFromString "1" = .ok true
    ∧ boolFromString "true" = .ok true
    ∧ boolFromString "TRUE" = .ok true
    ∧ (∃ msg, boolFromString "yes" = .error (.RuntimeError msg)) :=
  ⟨(boolFromString_exact "0").2.1.mpr (Or.inl rfl),
   (boolFromString_exact "false").2.1.mpr (Or.inr (Or.inl rfl)),
   (boolFromString_exact "FALSE").2.1.mpr (Or.inr (Or.inr rfl)),
   (boolFromString_exact "1").1.mpr (Or.inl rfl),
   (boolFromString_exact "true").1.mpr (Or.inr (Or.inl rfl)),
   (boolFromString_exact "TRUE").1.mpr (Or.inr (Or.inr rfl)),
   (boolFromString_exact "yes").2.2 (by decide)⟩

/-- Helper: the type identity and converter of a PortInfo produced by a
successful `CreatePort` call, as a function of the type parameter. -/
lemma createPort_ok_fields (t : TypeId) (d : PortDirection)
    (name description nm : String) (info : PortInfo)
    (hok : CreatePort t d name description = .ok (nm, info)) :
    info.type_info_ = (if t = TypeId.voidT then TypeId.anyTypeAllowed else t)
    ∧ info.converter_ =
        (if t = TypeId.voidT then none else GetAnyFromStringFunctor t) := by
  unfold CreatePort at hok
  split at hok
  · simp at hok
  · by_cases ht : t = TypeId.voidT <;> by_cases hd : description = "" <;>
      simp only [ht, hd, if_pos, if_neg, ite_true, ite_false, not_false_iff,
        Except.ok.injEq, Prod.mk.injEq] at hok <;>
      obtain ⟨h1, h2⟩ := hok <;> subst h2 <;>
      simp [PortInfo.mkDefault, PortInfo.mkTyped, PortInfo.setDescription, ht]

/-- Claim C2 counterexample: a port created with CreatePort's default type
parameter `AnyTypeAllowed` reports `isStronglyTyped = false`, yet its
converter is NOT empty — the typed branch of CreatePort runs and installs
`GetAnyFromStringFunctor<AnyTypeAllowed>`, a non-empty functor. -/
theorem createPort_default_param_converter_nonempty :
    (CreatePort TypeId.anyTypeAllowed PortDirection.INPUT "speed" "").map
        (fun pr => (pr.2.isStronglyTyped, pr.2.converter.isSome))
      = .ok (false, true) := rfl

/-- Claim C2 (amended): a port successfully created with an explicit
non-sentinel, non-void type T is strongly typed and carries
`GetAnyFromStringFunctor T`; a port created with `void` (the default of
InputPort/OutputPort/BidirectionalPort) is not strongly typed and has no
converter; a port created with the sentinel `AnyTypeAllowed` (CreatePort's
own default type parameter) is not strongly typed but still carries the
non-empty converter `GetAnyFromStringFunctor AnyTypeAllowed`. -/
theorem createPort_strong_typing (t : TypeId) (d : PortDirection)
    (name description nm : String) (info : PortInfo)
    (hok : CreatePort t d name description = .ok (nm, info)) :
    (t ≠ TypeId.voidT ∧ t ≠ TypeId.anyTypeAllowed →
        info.isStronglyTyped = true ∧ info.converter = GetAnyFromStringFunctor t)
    ∧ (t = TypeId.voidT → info.isStronglyTyped = false ∧ info.converter = none)
    ∧ (t = TypeId.anyTypeAllowed →
        info.isStronglyTyped = false
        ∧ info.converter = GetAnyFromStringFunctor TypeId.anyTypeAllowed
        ∧ (GetAnyFromStringFunctor TypeId.anyTypeAllowed).isSome = true) := by
  obtain ⟨hty, hconv⟩ := createPort_ok_fields t d name description nm info hok
  refine ⟨?_, ?_, ?_⟩
  · rintro ⟨hv, ha⟩
    rw [if_neg hv] at hty
    rw [if_neg hv] at hconv
    refine ⟨?_, by simp [PortInfo.converter, hconv]⟩
    simp [PortInfo.isStronglyTyped, hty, ha]
  · intro hv
    rw [if_pos hv] at hty
    rw [if_pos hv] at hconv
    exact ⟨by simp [PortInfo.isStronglyTyped, hty],
           by simp [PortInfo.converter, hconv]⟩
  · intro ha
    have hv : t ≠ TypeId.voidT := by subst ha; simp
    rw [if_neg hv] at hty
    rw [if_neg hv] at hconv
    subst ha
    exact ⟨by simp [PortInfo.isStronglyTyped, hty],
           by simp [PortInfo.converter, hconv], rfl⟩

/-- Witness for C2 (amended) at concrete ports: a std::string port is
strongly typed with the std::string converter, and a void port is untyped
with no converter. -/
theorem createPort_strong_typing_witness :
    ((PortInfo.mkTyped PortDirection.INPUT TypeId.stringT
        (GetAnyFromStringFunctor TypeId.stringT)).isStronglyTyped = true
      ∧ (PortInfo.mkTyped PortDirection.INPUT TypeId.stringT
          (GetAnyFromStringFunctor TypeId.stringT)).converter =
            GetAnyFromStringFunctor TypeId.stringT)
    ∧ ((PortInfo.mkDefault PortDirection.OUTPUT).isStronglyTyped = false
      ∧ (PortInfo.mkDefault PortDirection.OUTPUT).converter = none) :=
  ⟨(createPort_strong_typing TypeId.stringT PortDirection.INPUT "speed" "" "speed"
      (PortInfo.mkTyped PortDirection.INPUT TypeId.stringT
        (GetAnyFromStringFunctor TypeId.stringT)) rfl).1 ⟨by simp, by simp⟩,
   (createPort_strong_typing TypeId.voidT PortDirection.OUTPUT "speed" "" "speed"
      (PortInfo.mkDefault PortDirection.OUTPUT) rfl).2.1 rfl⟩

/-- Claim C3 counterexample: when rendering of the new default throws, the
previously rendered default string survives unchanged — it is NOT left
empty.  Here a bool default is set first (rendered "true"), then a default
of an unrenderable type: the typed default is replaced, rendering throws a
LogicError, and `defaultValueString` still reads "true". -/
theorem setDefaultValue_render_failure_keeps_old_string :
    (((PortInfo.mkDefault PortDirection.INPUT).setDefaultValue
          (CppValue.boolVal true)).bind
        (fun q => q.setDefaultValue
          (CppValue.otherVal (TypeId.other "Pose2D" false) 0))).map
        (fun q => (q.defaultValueString, q.defaultValue))
      = .ok ("true", Any.val (CppValue.otherVal (TypeId.other "Pose2D" false) 0))
    ∧ toStr (CppValue.otherVal (TypeId.other "Pose2D" false) 0) =
        .error (.LogicError
          ("Function BT::toStr<T>() not specialized for type ["
            ++ "Pose2D"
            ++ "],Implement it consistently with BT::convertFromString<T>(), "
            ++ "or provide at dummy version that returns an empty string."))
    ∧ ("true" : String) ≠ "" :=
  ⟨rfl, rfl, by decide⟩

/-- Claim C3 (amended): `setDefaultValue` never fails observably: it always
returns a PortInfo whose typed default is the given value; when rendering
succeeds the rendered string is stored, and when rendering throws the
failure is swallowed and `defaultValueString` is left unchanged (hence
empty whenever no earlier default had been rendered, as on a freshly
constructed port). -/
theorem setDefaultValue_never_fails (p : PortInfo) (v : CppValue) :
    ∃ q, p.setDefaultValue v = .ok q
      ∧ q.defaultValue = Any.val v
      ∧ (∀ s, toStr v = .ok s → q.defaultValueString = s)
      ∧ (∀ e, toStr v = .error e → q.defaultValueString = p.defaultValueString) := by
  unfold PortInfo.setDefaultValue
  cases hts : toStr v with
  | ok s =>
    refine ⟨_, rfl, rfl, ?_, ?_⟩
    · intro s2 h2
      cases h2
      rfl
    · intro e h2
      exact Except.noConfusion h2
  | error e =>
    cases e with
    | LogicError m =>
      refine ⟨_, rfl, rfl, ?_, fun _ _ => rfl⟩
      intro s2 h2
      exact Except.noConfusion h2
    | RuntimeError m =>
      exfalso
      cases v with
      | otherVal t payload =>
        simp only [toStr] at hts
        split at hts
        · exact Except.noConfusion hts
        · injection hts with h
          exact BTError.noConfusion h
      | strVal s => simp [toStr] at hts
      | boolVal b => simp [toStr] at hts
      | statusVal st => simp [toStr] at hts
      | kindVal k => simp [toStr] at hts
      | dirVal dd => simp [toStr] at hts

/-- Witness for C3 (amended) at a concrete port and defaults: a renderable
bool default stores "true"; an unrenderable default on a fresh port leaves
the string empty while the typed default is stored. -/
theorem setDefaultValue_never_fails_witness :
    (∃ q, (PortInfo.mkDefault PortDirection.INPUT).setDefaultValue
          (CppValue.boolVal true) = .ok q
        ∧ q.defaultValue = Any.val (CppValue.boolVal true)
        ∧ q.defaultValueString = "true")
    ∧ (∃ q, (PortInfo.mkDefault PortDirection.INPUT).setDefaultValue
          (CppValue.otherVal (TypeId.other "Pose2D" false) 0) = .ok q
        ∧ q.defaultValue = Any.val (CppValue.otherVal (TypeId.other "Pose2D" false) 0)
        ∧ q.defaultValueString = "") := by
  constructor
  · obtain ⟨q, h1, h2, h3, _⟩ := setDefaultValue_never_fails
      (PortInfo.mkDefault PortDirection.INPUT) (CppValue.boolVal true)
    exact ⟨q, h1, h2, h3 "true" rfl⟩
  · obtain ⟨q, h1, h2, _, h4⟩ := setDefaultValue_never_fails
      (PortInfo.mkDefault PortDirection.INPUT)
      (CppValue.otherVal (TypeId.other "Pose2D" false) 0)
    exact ⟨q, h1, h2, h4 _ rfl⟩

end BT
